import Mathlib

/-!
Shallow embedding of the analytics ingestion pipeline of the `ali`
link-in-bio service: the batch event queue (`src/lib/utils/batch-queue.ts`),
the transient-retry wrapper and the page-identifier generator
(`src/lib/supabase/queries.ts`).

Modelling conventions:
* JavaScript strings are Lean `String`s; a JS `undefined`/missing string
  field is modelled as the empty string (both are falsy in the source's
  validity checks).
* `Array.prototype.includes` substring search is modelled by `subStrOf`.
* The queue runs in a single-threaded cooperative scheduler; the only
  suspension point of `flush` is the awaited bulk insert, so a flush is
  split into its synchronous prefix (`flushStart`) and the continuation
  that runs when the insert settles (`flushFinish`).  The list `during`
  holds the items enqueued while the insert was in flight; since the
  buffer was emptied by `flushStart` and every other flush attempt is a
  no-op while `isProcessing` is set, the live buffer equals `during`
  when the continuation resumes.
* A thrown JS error is modelled by the payload the source inspects: for
  the bulk insert, the optional `code` string; for the retry wrapper,
  the `message` string of an `Error` instance.
-/

/-- Character-list test: `pat` occurs at the very start of `s`. -/
def leadsChars : List Char → List Char → Bool
  | [], _ => true
  | _ :: _, [] => false
  | a :: as, b :: bs => a == b && leadsChars as bs

/-- Character-list test: `pat` occurs somewhere inside `s`
(model of JavaScript `String.prototype.includes`). -/
def subChars (pat : List Char) : List Char → Bool
  | [] => leadsChars pat []
  | b :: bs => leadsChars pat (b :: bs) || subChars pat bs

/-- String containment: `subStrOf pat s` holds when `pat` is a substring
of `s`, the model of `s.includes(pat)` in the source. -/
def subStrOf (pat s : String) : Bool := subChars pat.toList s.toList

/-- ASCII lower-casing of a string, character by character. -/
def lowerStr (s : String) : String := String.mk (s.toList.map Char.toLower)

/-- Model of JavaScript `String.prototype.trim`: strip leading and
trailing whitespace characters. -/
def isWsChar (c : Char) : Bool := c == ' ' || c == '\t' || c == '\n' || c == '\r'

/-- Trim of a string, used by the enqueue-boundary validation. -/
def trimStr (s : String) : String :=
  String.mk (((s.toList.dropWhile isWsChar).reverse.dropWhile isWsChar).reverse)

/-! ## The batch queue (`BatchQueue` in `src/lib/utils/batch-queue.ts`) -/

/-- In-memory state of one `BatchQueue` instance: the live buffer
(`this.queue`) and the mutual-exclusion flag (`this.isProcessing`). -/
structure QueueState (α : Type) where
  queue : List α
  isProcessing : Bool
deriving DecidableEq

/-- The hard cap consulted before reinserting a failed batch
(`const maxQueueSize = 2000` in `BatchQueue.flush`). -/
def maxQueueSize : Nat := 2000

/-- Outcome of the awaited bulk insert (`this.insertFn(itemsToInsert)`):
success, or a thrown error carrying an optional `code` string (a thrown
value without a `code` field is modelled as `err none`). -/
inductive InsertOutcome where
  | ok : InsertOutcome
  | err : Option String → InsertOutcome
deriving DecidableEq

/-- Classification of a bulk-insert error as ignorable, from
`BatchQueue.flush`: the error is an object with a `code` whose string
form contains `23505` (duplicate entry) or `23503` (deleted parent). -/
def isIgnorableError : Option String → Bool
  | none => false
  | some c => subStrOf "23505" c || subStrOf "23503" c

/-- Synchronous prefix of `BatchQueue.flush`: return unchanged when the
flag is set or the buffer is empty (the source's `!this.queue` check is
vacuous, an array is always truthy, and the `itemsToInsert.length === 0`
early return is unreachable because the buffer was non-empty); otherwise
set the flag, snapshot the buffer, clear it, and submit the snapshot.
The second component is the batch handed to the bulk insert, `none` when
the call was a no-op. -/
def flushStart {α : Type} (st : QueueState α) : QueueState α × Option (List α) :=
  if st.isProcessing || st.queue.isEmpty then (st, none)
  else ({ queue := [], isProcessing := true }, some st.queue)

/-- Continuation of `BatchQueue.flush` once the awaited bulk insert of
`snapshot` settles with `res`, where `during` is the live buffer at that
moment (exactly the items enqueued while the insert was in flight).  On
success or an ignorable error the buffer is left as `during`; on any
other error the snapshot is reinserted via `unshift`: the whole snapshot
when `during` is shorter than `maxQueueSize`, else only its first 1000
items (`itemsToInsert.slice(0, 1000)`), and the error is re-thrown.  The
`finally` block clears the flag on every path.  The second component is
the re-raised error (`none` when `flush` returns normally). -/
def flushFinish {α : Type} (snapshot during : List α) (res : InsertOutcome) :
    QueueState α × Option (Option String) :=
  match res with
  | .ok => ({ queue := during, isProcessing := false }, none)
  | .err c =>
    if isIgnorableError c then ({ queue := during, isProcessing := false }, none)
    else
      let q := if during.length < maxQueueSize then snapshot ++ during
               else snapshot.take 1000 ++ during
      ({ queue := q, isProcessing := false }, some c)

/-- Model of `BatchQueue.add`: push the item onto the buffer tail; the
Boolean records whether the size threshold fired a fire-and-forget
`flush()` call (`this.queue.length >= this.maxBatchSize`).  The call
returns at once either way; the triggered flush runs asynchronously and
its outcome never reaches the caller of `add`. -/
def add {α : Type} (st : QueueState α) (item : α) (maxBatchSize : Nat) :
    QueueState α × Bool :=
  let q := st.queue ++ [item]
  ({ queue := q, isProcessing := st.isProcessing }, decide (maxBatchSize ≤ q.length))

/-- Fold of `add` over a list of items; the second component counts how
many of the enqueues fired an asynchronous flush attempt. -/
def addAll {α : Type} (st : QueueState α) (items : List α) (maxBatchSize : Nat) :
    QueueState α × Nat :=
  match items with
  | [] => (st, 0)
  | x :: xs =>
    let r := add st x maxBatchSize
    let rest := addAll r.1 xs maxBatchSize
    (rest.1, (if r.2 then 1 else 0) + rest.2)

/-! ## The transient-retry wrapper (`retryWithBackoff` in `queries.ts`) -/

/-- Result of one attempt of the wrapped operation: a success value or
the message of the thrown `Error`. -/
inductive RunResult (α : Type) where
  | ok : α → RunResult α
  | err : String → RunResult α
deriving DecidableEq

/-- The source's timeout/connection classification: the thrown error is
an `Error` whose message contains one of the four literal substrings
(each matched case-sensitively by `String.prototype.includes`). -/
def isTimeoutError (m : String) : Bool :=
  subStrOf "timeout" m || subStrOf "TIMEOUT" m ||
  subStrOf "Connect Timeout" m || subStrOf "fetch failed" m

/-- Retryable classification as the specification words it: the message
contains `timeout` matched case-insensitively, or `connect timeout`, or
`fetch failed`.  Stated for comparison with `isTimeoutError`. -/
def specRetryClassifier (m : String) : Bool :=
  subStrOf "timeout" (lowerStr m) || subStrOf "connect timeout" m ||
  subStrOf "fetch failed" m

/-- The `for` loop of `retryWithBackoff`, structural on the remaining
fuel (`maxRetries + 1 - attempt` iterations remain).  `op n` is the
outcome of the wrapped operation on attempt `n` (0-indexed); on a
retryable failure before the last attempt the loop sleeps
`initialDelay * 2 ^ attempt` and continues, otherwise it re-throws.  The
returned list records the backoff delays in order.  `lastErr` carries
the source's `lastError` for the (unreachable) fall-through throw. -/
def retryLoop {α : Type} (op : Nat → RunResult α) (maxRetries initialDelay : Nat) :
    String → Nat → Nat → RunResult α × List Nat
  | lastErr, _, 0 => (.err lastErr, [])
  | _, attempt, fuel + 1 =>
    match op attempt with
    | .ok v => (.ok v, [])
    | .err m =>
      if isTimeoutError m && decide (attempt < maxRetries) then
        let r := retryLoop op maxRetries initialDelay m (attempt + 1) fuel
        (r.1, initialDelay * 2 ^ attempt :: r.2)
      else (.err m, [])

/-- Model of `retryWithBackoff fn maxRetries initialDelay`: run the
attempt loop from attempt 0 with its full fuel. -/
def retryWithBackoff {α : Type} (op : Nat → RunResult α) (maxRetries initialDelay : Nat) :
    RunResult α × List Nat :=
  retryLoop op maxRetries initialDelay "" 0 (maxRetries + 1)

/-! ## The identifier generator (`generateUid` / `createLinktree`) -/

/-- The custom alphabet of `generateUid`: lowercase letters, digits and
the hyphen (37 characters). -/
def uidAlphabet : List Char := "abcdefghijklmnopqrstuvwxyz0123456789-".toList

/-- Model of `generateUid`: build a string of `len` characters, the
`i`-th drawn from `uidAlphabet` at index `randomValues i % 37`, where
`randomValues` models the `Uint32Array` filled by the random source. -/
def generateUid (randomValues : Nat → Nat) (len : Nat) : String :=
  String.mk ((List.range len).map fun i =>
    uidAlphabet.getD (randomValues i % uidAlphabet.length) 'a')

/-- The `while (attempts < maxAttempts)` loop of `createLinktree`:
generate a candidate, consult the uniqueness lookup (`collides a` is the
lookup's verdict on the `a`-th attempt, `rnd a` its random values), stop
on the first unique candidate, give up when the fuel runs out.  Returns
the identifier found (`none` models the thrown generation-exhausted
error) together with the number of `generateUid` calls performed. -/
def findUidAux (collides : Nat → Bool) (rnd : Nat → Nat → Nat) :
    Nat → Nat → Option String × Nat
  | _, 0 => (none, 0)
  | attempt, fuel + 1 =>
    let uid := generateUid (rnd attempt) 21
    if collides attempt then
      let r := findUidAux collides rnd (attempt + 1) fuel
      (r.1, r.2 + 1)
    else (some uid, 1)

/-- The identifier-generation phase of `createLinktree`: up to
`maxAttempts = 10` optimistic draws, each checked against the store. -/
def createLinktreeUid (collides : Nat → Bool) (rnd : Nat → Nat → Nat) :
    Option String × Nat :=
  findUidAux collides rnd 0 10

/-! ## The enqueue entry points (`addView` / `addClick`) -/

/-- A page-view telemetry event (`ViewRecord` in `batch-queue.ts`). -/
structure ViewRecord where
  linktree_id : String
  ip_address : String
  session_id : Option String
  viewed_at : String
deriving DecidableEq

/-- A link-click telemetry event (`ClickRecord` in `batch-queue.ts`). -/
structure ClickRecord where
  link_id : String
  linktree_id : String
  ip_address : String
  session_id : Option String
  clicked_at : String
deriving DecidableEq

/-- Model of the exported `addView`: drop the event at the boundary when
`linktree_id` or `ip_address` is empty or trims to empty, otherwise hand
it to the view queue's `add`.  The Boolean records whether the event
entered the buffer; the call returns normally in both cases. -/
def addView (st : QueueState ViewRecord) (v : ViewRecord) (maxBatchSize : Nat) :
    QueueState ViewRecord × Bool :=
  if v.linktree_id == "" || trimStr v.linktree_id == "" ||
     v.ip_address == "" || trimStr v.ip_address == "" then
    (st, false)
  else
    ((add st v maxBatchSize).1, true)

/-- Model of the exported `addClick`: as `addView`, with the additional
required `link_id` field. -/
def addClick (st : QueueState ClickRecord) (c : ClickRecord) (maxBatchSize : Nat) :
    QueueState ClickRecord × Bool :=
  if c.link_id == "" || trimStr c.link_id == "" ||
     c.linktree_id == "" || trimStr c.linktree_id == "" ||
     c.ip_address == "" || trimStr c.ip_address == "" then
    (st, false)
  else
    ((add st c maxBatchSize).1, true)

/-! ## Theorems -/

/-- Helper: the processing flag is cleared on every settlement path of a
flush (the source's `finally` block). -/
theorem flushFinish_flag {α : Type} (snapshot during : List α) (res : InsertOutcome) :
    (flushFinish snapshot during res).1.isProcessing = false := by
  cases res with
  | ok => rfl
  | err c =>
    by_cases h : isIgnorableError c
    · simp [flushFinish, h]
    · simp [flushFinish, h]

/-- Helper: an idle queue with a non-empty buffer submits exactly its
buffer and moves to the processing state with an emptied buffer. -/
theorem flushStart_ready {α : Type} (st : QueueState α)
    (hp : st.isProcessing = false) (hq : st.queue ≠ []) :
    flushStart st = (⟨[], true⟩, some st.queue) := by
  have he : st.queue.isEmpty = false := by
    simpa [List.isEmpty_iff] using hq
  simp [flushStart, hp, he]

/-- C4: `flush()` is a no-op — nothing is submitted to bulk persist and
the buffer is untouched — whenever the buffer is empty or another flush
is in progress; a submission happens only from an idle queue, and sets
the processing flag so that any flush started while one is in flight
submits nothing, so two logically concurrent flushes never submit
overlapping snapshots. -/
theorem flush_mutual_exclusion {α : Type} (st : QueueState α) :
    (st.isProcessing = true → flushStart st = (st, none)) ∧
    (st.queue = [] → flushStart st = (st, none)) ∧
    (∀ st' snap, flushStart st = (st', some snap) →
      st.isProcessing = false ∧ snap = st.queue ∧
      st'.isProcessing = true ∧ st'.queue = [] ∧
      ∀ q : List α, flushStart ⟨q, true⟩ = (⟨q, true⟩, none)) := by
  refine ⟨?_, ?_, ?_⟩
  · intro h; simp [flushStart, h]
  · intro h; simp [flushStart, h]
  · intro st' snap h
    cases hB : (st.isProcessing || st.queue.isEmpty) with
    | true => simp [flushStart, hB] at h
    | false =>
      rw [Bool.or_eq_false_iff] at hB
      obtain ⟨hp, hq⟩ := hB
      have hne : st.queue ≠ [] := by
        simpa [List.isEmpty_iff] using hq
      rw [flushStart_ready st hp hne] at h
      obtain ⟨h1, h2⟩ := Prod.mk.injEq .. |>.mp h
      refine ⟨hp, by simpa using h2.symm, ?_, ?_, ?_⟩
      · rw [← h1]
      · rw [← h1]
      · intro q; simp [flushStart]

/-- Witness for C4 at a concrete state: with the flag set, a flush of a
non-empty one-item buffer submits nothing and leaves the state as is. -/
theorem flush_mutual_exclusion_witness :
    flushStart (⟨[7], true⟩ : QueueState Nat) = (⟨[7], true⟩, none) :=
  (flush_mutual_exclusion (⟨[7], true⟩ : QueueState Nat)).1 rfl

/-- C10: every way the bulk insert can settle — success, ignorable
failure, retryable failure — leaves the processing flag cleared, so a
failed flush never wedges the queue: a later flush that finds a
non-empty buffer submits it instead of no-opping on a stale flag. -/
theorem flush_clears_processing_flag {α : Type}
    (snapshot during : List α) (res : InsertOutcome) :
    (flushFinish snapshot during res).1.isProcessing = false ∧
    ((flushFinish snapshot during res).1.queue ≠ [] →
      flushStart (flushFinish snapshot during res).1 =
        (⟨[], true⟩, some (flushFinish snapshot during res).1.queue)) := by
  refine ⟨flushFinish_flag snapshot during res, ?_⟩
  intro hne
  exact flushStart_ready _ (flushFinish_flag snapshot during res) hne

/-- Witness for C10: after a retryable failure of a one-item snapshot
with nothing enqueued in flight, the flag is down and the next flush
submits the reinserted batch. -/
theorem flush_clears_processing_flag_witness :
    flushStart (flushFinish [3] ([] : List Nat) (.err (some "boom"))).1 =
      (⟨[], true⟩, some (flushFinish [3] ([] : List Nat) (.err (some "boom"))).1.queue) :=
  (flush_clears_processing_flag [3] ([] : List Nat) (.err (some "boom"))).2 (by decide)

/-- Helper: the retryable-error branch of `flushFinish`, uncapped case:
with the live buffer below `maxQueueSize`, the whole snapshot is
unshifted. -/
theorem flushFinish_err_lt {α : Type} (snapshot during : List α) (c : Option String)
    (h : isIgnorableError c = false) (hd : during.length < maxQueueSize) :
    flushFinish snapshot during (.err c) =
      ({ queue := snapshot ++ during, isProcessing := false }, some c) := by
  simp only [flushFinish, h, Bool.false_eq_true, if_false, if_pos hd]

/-- Helper: the retryable-error branch of `flushFinish`, capped case:
with the live buffer at or above `maxQueueSize`, only the first 1000
snapshot items are unshifted. -/
theorem flushFinish_err_ge {α : Type} (snapshot during : List α) (c : Option String)
    (h : isIgnorableError c = false) (hd : ¬ during.length < maxQueueSize) :
    flushFinish snapshot during (.err c) =
      ({ queue := snapshot.take 1000 ++ during, isProcessing := false }, some c) := by
  simp only [flushFinish, h, Bool.false_eq_true, if_false, if_neg hd]

/-- C1 counterexample: the reinsertion after a retryable failure does
not keep the buffer within `maxQueueSize = 2000`.  With 1999 items
enqueued during the failed flush of a 2-item snapshot, the live buffer
is below the cap, so the whole snapshot is unshifted and the buffer ends
at 2001 items — strictly above the cap the claim promises. -/
theorem flush_reinsert_cap_cex :
    2000 < (flushFinish (List.replicate 2 (0 : Nat)) (List.replicate 1999 0)
      (.err (some "ECONNRESET"))).1.queue.length := by
  have hig : isIgnorableError (some "ECONNRESET") = false := by decide
  have hd : (List.replicate 1999 (0 : Nat)).length < maxQueueSize := by
    rw [List.length_replicate, maxQueueSize]; omega
  rw [flushFinish_err_lt _ _ _ hig hd]
  show 2000 < (List.replicate 2 (0 : Nat) ++ List.replicate 1999 0).length
  rw [List.length_append, List.length_replicate, List.length_replicate]
  omega

/-- C1 amended: reinsertion after a retryable failure is not truncated
to `maxQueueSize`.  When the live buffer holds fewer than 2000 items the
whole snapshot is reinserted, so the buffer reaches
`|snapshot| + |live|`, which can exceed the cap; when the live buffer
already holds at least 2000 items, only the first (oldest) 1000 snapshot
items are reinserted and the rest are dropped, so the buffer still grows
by `min 1000 |snapshot|`.  The excess dropped in the capped branch is
the newest part of the snapshot, never part of the live buffer. -/
theorem flush_reinsert_cap_amended {α : Type}
    (snapshot during : List α) (c : Option String)
    (h : isIgnorableError c = false) :
    (flushFinish snapshot during (.err c)).1.queue.length =
      (if during.length < 2000 then snapshot.length + during.length
       else min 1000 snapshot.length + during.length) ∧
    (2000 ≤ during.length →
      (flushFinish snapshot during (.err c)).1.queue =
        snapshot.take 1000 ++ during) := by
  constructor
  · by_cases hd : during.length < 2000
    · simp [flushFinish, h, maxQueueSize, hd]
    · simp [flushFinish, h, maxQueueSize, hd]
  · intro hd
    have hd' : ¬ during.length < 2000 := by omega
    simp [flushFinish, h, maxQueueSize, hd']

/-- Witness for C1 amended: failing a 2-item snapshot over an empty live
buffer leaves a 2-item buffer. -/
theorem flush_reinsert_cap_amended_witness :
    (flushFinish [0, 1] ([] : List Nat) (.err (some "ECONNRESET"))).1.queue.length =
      (if ([] : List Nat).length < 2000 then [0, 1].length + ([] : List Nat).length
       else min 1000 [0, 1].length + ([] : List Nat).length) :=
  (flush_reinsert_cap_amended [0, 1] ([] : List Nat) (some "ECONNRESET") (by decide)).1

/-- C2 counterexample: when at least 2000 items were enqueued during the
failed flush, not all snapshotted items are reinserted — a 1001-item
snapshot comes back as only its first 1000 items, so the resulting
buffer is not the snapshot followed by the newly enqueued items. -/
theorem flush_reinsert_front_cex :
    (flushFinish (List.replicate 1001 (0 : Nat)) (List.replicate 2000 1)
      (.err (some "ECONNRESET"))).1.queue ≠
      List.replicate 1001 (0 : Nat) ++ List.replicate 2000 1 := by
  intro h
  have hig : isIgnorableError (some "ECONNRESET") = false := by decide
  have hd : ¬ (List.replicate 2000 (1 : Nat)).length < maxQueueSize := by
    rw [List.length_replicate, maxQueueSize]; omega
  rw [flushFinish_err_ge _ _ _ hig hd] at h
  have h' : (List.replicate 1001 (0 : Nat)).take 1000 ++ List.replicate 2000 1 =
      List.replicate 1001 (0 : Nat) ++ List.replicate 2000 1 := h
  have hlen := congrArg List.length h'
  simp only [List.length_append, List.length_take, List.length_replicate] at hlen
  omega

/-- C2 amended: on a retryable failure the error is re-raised to the
caller of `flush()`, and the reinserted items land at the front of the
live buffer in their original order ahead of everything enqueued while
the flush was in flight; the reinserted portion is the whole snapshot
when the live buffer holds fewer than 2000 items, and only its oldest
1000 items otherwise. -/
theorem flush_reinsert_front_amended {α : Type}
    (snapshot during : List α) (c : Option String)
    (h : isIgnorableError c = false) :
    (flushFinish snapshot during (.err c)).2 = some c ∧
    (during.length < 2000 →
      (flushFinish snapshot during (.err c)).1.queue = snapshot ++ during) ∧
    (2000 ≤ during.length →
      (flushFinish snapshot during (.err c)).1.queue = snapshot.take 1000 ++ during) := by
  refine ⟨by simp [flushFinish, h], ?_, ?_⟩
  · intro hd; simp [flushFinish, h, maxQueueSize, hd]
  · intro hd
    have hd' : ¬ during.length < 2000 := by omega
    simp [flushFinish, h, maxQueueSize, hd']

/-- Witness for C2 amended: a failed 2-item snapshot with one item
enqueued in flight re-raises the error and yields snapshot followed by
the new item. -/
theorem flush_reinsert_front_amended_witness :
    (flushFinish [0, 1] [5] (.err (some "ECONNRESET"))).2 = some (some "ECONNRESET") ∧
    (flushFinish [0, 1] [5] (.err (some "ECONNRESET"))).1.queue = [0, 1] ++ [5] := by
  have h := flush_reinsert_front_amended [0, 1] [5] (some "ECONNRESET") (by decide)
  exact ⟨h.1, h.2.1 (by decide)⟩

/-- C3: a bulk-insert failure whose code contains `23505` or `23503` is
swallowed: `flush()` re-raises nothing, the snapshot is discarded rather
than reinserted, the post-state equals that of a successful flush, and
if nothing was enqueued during the flush the buffer ends empty. -/
theorem flush_ignorable_swallowed {α : Type}
    (snapshot during : List α) (c : Option String)
    (h : isIgnorableError c = true) :
    flushFinish snapshot during (.err c) = (⟨during, false⟩, none) ∧
    flushFinish snapshot during (.err c) = flushFinish snapshot during .ok ∧
    (during = [] → (flushFinish snapshot during (.err c)).1.queue = []) := by
  refine ⟨by simp [flushFinish, h], by simp [flushFinish, h], ?_⟩
  intro hd
  simp [flushFinish, h, hd]

/-- Witness for C3: a duplicate-key failure (code `23505`) of a one-item
snapshot with nothing enqueued in flight leaves an empty, idle queue and
raises nothing. -/
theorem flush_ignorable_swallowed_witness :
    flushFinish [9] ([] : List Nat) (.err (some "23505")) = (⟨[], false⟩, none) :=
  (flush_ignorable_swallowed [9] ([] : List Nat) (some "23505") (by decide)).1

/-- Helper: enqueueing a list of items appends them in order and never
touches the processing flag. -/
theorem addAll_state {α : Type} (items : List α) :
    ∀ (st : QueueState α) (B : Nat),
      (addAll st items B).1 = ⟨st.queue ++ items, st.isProcessing⟩ := by
  induction items with
  | nil => intro st B; simp [addAll]
  | cons x xs ih =>
    intro st B
    simp only [addAll, add]
    rw [ih]
    simp

/-- Helper: the number of size-threshold flush triggers over a run of
enqueues, as a function of the starting and final buffer lengths. -/
theorem addAll_count {α : Type} (B : Nat) (items : List α) :
    ∀ st : QueueState α,
      (addAll st items B).2 =
        (st.queue.length + items.length + 1 - B) - (st.queue.length + 1 - B) := by
  induction items with
  | nil => intro st; simp [addAll]
  | cons x xs ih =>
    intro st
    have h := ih ⟨st.queue ++ [x], st.isProcessing⟩
    simp only [addAll, add]
    simp only [List.length_append, List.length_cons, List.length_nil] at h ⊢
    by_cases hB : B ≤ st.queue.length + 1
    · rw [h]; simp [hB]; omega
    · rw [h]; simp [hB]; omega

/-- C5: starting from an empty queue, a run of enqueues that leaves the
buffer below `maxBatchSize` fires no flush (so no persist call happens
before the timer or an explicit `flush()`); a run of exactly
`maxBatchSize` enqueues fires exactly one asynchronous flush attempt;
and a single enqueue appends its item to the buffer tail and fires
precisely when the new length reaches the threshold — the enqueue
returns at once either way, since the fired flush is detached from it. -/
theorem enqueue_threshold_trigger {α : Type} (B : Nat) (hB : 0 < B) (items : List α) :
    (addAll ⟨[], false⟩ items B).1 = ⟨items, false⟩ ∧
    (items.length < B → (addAll ⟨[], false⟩ items B).2 = 0) ∧
    (items.length = B → (addAll ⟨[], false⟩ items B).2 = 1) ∧
    (∀ (st : QueueState α) (item : α),
      ((add st item B).2 = true ↔ B ≤ st.queue.length + 1) ∧
      (add st item B).1.queue = st.queue ++ [item]) := by
  refine ⟨?_, ?_, ?_, ?_⟩
  · rw [addAll_state]; simp
  · intro h
    rw [addAll_count]
    simp only [List.length_nil]
    omega
  · intro h
    rw [addAll_count]
    simp only [List.length_nil]
    omega
  · intro st item
    constructor
    · simp [add]
    · simp [add]

/-- Witness for C5: with threshold 2, enqueueing one item fires nothing
and enqueueing a second fires exactly one flush attempt. -/
theorem enqueue_threshold_trigger_witness :
    (addAll (⟨[], false⟩ : QueueState Nat) [7] 2).2 = 0 ∧
    (addAll (⟨[], false⟩ : QueueState Nat) [7, 8] 2).2 = 1 :=
  ⟨(enqueue_threshold_trigger 2 (by decide) [7]).2.1 (by decide),
   (enqueue_threshold_trigger 2 (by decide) [7, 8]).2.2.1 rfl⟩

/-- C9: the enqueue entry points drop an event at the boundary — state
untouched, no error, nothing buffered — whenever a required reference
field trims to empty (`linktree_id`/`ip_address` for views, plus
`link_id` for clicks), and an event that does get buffered necessarily
has all its required fields non-empty after trimming, landing at the
buffer tail. -/
theorem enqueue_boundary_validation (st : QueueState ViewRecord)
    (stc : QueueState ClickRecord) (v : ViewRecord) (c : ClickRecord) (B : Nat) :
    ((trimStr v.linktree_id = "" ∨ trimStr v.ip_address = "") →
      addView st v B = (st, false)) ∧
    ((addView st v B).2 = true →
      trimStr v.linktree_id ≠ "" ∧ trimStr v.ip_address ≠ "" ∧
      (addView st v B).1.queue = st.queue ++ [v]) ∧
    ((trimStr c.link_id = "" ∨ trimStr c.linktree_id = "" ∨ trimStr c.ip_address = "") →
      addClick stc c B = (stc, false)) ∧
    ((addClick stc c B).2 = true →
      trimStr c.link_id ≠ "" ∧ trimStr c.linktree_id ≠ "" ∧ trimStr c.ip_address ≠ "" ∧
      (addClick stc c B).1.queue = stc.queue ++ [c]) := by
  refine ⟨?_, ?_, ?_, ?_⟩
  · intro h
    rcases h with h | h <;> simp [addView, h]
  · intro h2
    by_cases hcond : (v.linktree_id == "" || trimStr v.linktree_id == "" ||
        v.ip_address == "" || trimStr v.ip_address == "") = true
    · rw [addView, if_pos hcond] at h2
      exact absurd h2 (by simp)
    · have he : addView st v B = ((add st v B).1, true) := by
        rw [addView, if_neg hcond]
      simp only [Bool.or_eq_true, not_or, beq_iff_eq] at hcond
      refine ⟨hcond.1.1.2, hcond.2, ?_⟩
      rw [he]
      simp [add]
  · intro h
    rcases h with h | h | h <;> simp [addClick, h]
  · intro h2
    by_cases hcond : (c.link_id == "" || trimStr c.link_id == "" ||
        c.linktree_id == "" || trimStr c.linktree_id == "" ||
        c.ip_address == "" || trimStr c.ip_address == "") = true
    · rw [addClick, if_pos hcond] at h2
      exact absurd h2 (by simp)
    · have he : addClick stc c B = ((add stc c B).1, true) := by
        rw [addClick, if_neg hcond]
      simp only [Bool.or_eq_true, not_or, beq_iff_eq] at hcond
      refine ⟨hcond.1.1.1.1.2, hcond.1.1.2, hcond.2, ?_⟩
      rw [he]
      simp [add]

/-- Witness for C9: a view whose address is only whitespace is dropped
with the state unchanged, and a well-formed click is appended. -/
theorem enqueue_boundary_validation_witness :
    addView ⟨[], false⟩ ⟨"lt1", "   ", none, "t0"⟩ 1000 = (⟨[], false⟩, false) ∧
    (addClick ⟨[], false⟩ ⟨"l1", "lt1", "1.2.3.4", none, "t0"⟩ 1000).1.queue =
      [⟨"l1", "lt1", "1.2.3.4", none, "t0"⟩] := by
  constructor
  · exact (enqueue_boundary_validation ⟨[], false⟩ ⟨[], false⟩
      ⟨"lt1", "   ", none, "t0"⟩ ⟨"l1", "lt1", "1.2.3.4", none, "t0"⟩ 1000).1
      (Or.inr (by decide))
  · have h := (enqueue_boundary_validation ⟨[], false⟩ ⟨[], false⟩
      ⟨"lt1", "   ", none, "t0"⟩ ⟨"l1", "lt1", "1.2.3.4", none, "t0"⟩ 1000).2.2.2
      (by decide)
    simpa using h.2.2.2

/-- Helper: peeling one backoff delay off the front of the delay list. -/
theorem range_map_pow_cons (d a k : Nat) :
    (List.range (k + 1)).map (fun n => d * 2 ^ (a + n)) =
      d * 2 ^ a :: (List.range k).map (fun n => d * 2 ^ (a + 1 + n)) := by
  rw [List.range_succ_eq_map, List.map_cons, List.map_map]
  refine congrArg₂ List.cons (by rw [Nat.add_zero]) ?_
  refine List.map_congr_left ?_
  intro n _
  have h : a + (n + 1) = a + 1 + n := by omega
  simp [Function.comp, h]

/-- Helper: when the first `k` attempts fail with timeout-classified
errors and attempt `k` succeeds within the retry budget, the loop
returns the success value after exactly the geometric backoff delays. -/
theorem retryLoop_toOk {α : Type} (op : Nat → RunResult α) (mr d : Nat) (v : α) :
    ∀ (k a fuel : Nat) (le : String),
      a + k ≤ mr → mr - a < fuel →
      (∀ i, i < k → ∃ m, op (a + i) = .err m ∧ isTimeoutError m = true) →
      op (a + k) = .ok v →
      retryLoop op mr d le a fuel =
        (.ok v, (List.range k).map fun n => d * 2 ^ (a + n)) := by
  intro k
  induction k with
  | zero =>
    intro a fuel le hle hfuel _ hok
    cases fuel with
    | zero => omega
    | succ f =>
      rw [Nat.add_zero] at hok
      simp [retryLoop, hok]
  | succ k ih =>
    intro a fuel le hle hfuel herr hok
    cases fuel with
    | zero => omega
    | succ f =>
      obtain ⟨m0, hm0, ht0⟩ := herr 0 (Nat.succ_pos k)
      rw [Nat.add_zero] at hm0
      have ha : a < mr := by omega
      have hidx : a + 1 + k = a + (k + 1) := by omega
      have hrec := ih (a + 1) f m0 (by omega) (by omega)
        (fun i hi => by
          have h := herr (i + 1) (by omega)
          rwa [show a + (i + 1) = a + 1 + i by omega] at h)
        (by rwa [hidx])
      simp only [retryLoop, hm0, ht0, decide_eq_true ha, Bool.and_self, if_pos]
      rw [hrec, range_map_pow_cons]

/-- Helper: when every attempt up to and including the last one fails
with a timeout-classified error, the loop re-raises the failure of the
final attempt after `maxRetries - attempt` backoff delays. -/
theorem retryLoop_exhaust {α : Type} (op : Nat → RunResult α) (mr d : Nat) (mlast : String) :
    ∀ (fuel a : Nat) (le : String),
      a ≤ mr → mr - a < fuel →
      (∀ i, a ≤ i → i ≤ mr → ∃ m, op i = .err m ∧ isTimeoutError m = true) →
      op mr = .err mlast →
      retryLoop op mr d le a fuel =
        (.err mlast, (List.range (mr - a)).map fun n => d * 2 ^ (a + n)) := by
  intro fuel
  induction fuel with
  | zero => intro a le ha hf _ _; omega
  | succ f ih =>
    intro a le ha hf herr hlast
    by_cases hmr : a = mr
    · subst hmr
      have hdec : decide (a < a) = false := decide_eq_false (lt_irrefl a)
      simp [retryLoop, hlast, hdec, Nat.sub_self]
    · have ha' : a < mr := lt_of_le_of_ne ha hmr
      obtain ⟨m, hm, ht⟩ := herr a (le_refl a) (le_of_lt ha')
      have hrec := ih (a + 1) m (by omega) (by omega)
        (fun i hi hi' => herr i (by omega) hi') hlast
      simp only [retryLoop, hm, ht, decide_eq_true ha', Bool.and_self, if_pos]
      rw [hrec]
      have hsub : mr - a = (mr - (a + 1)) + 1 := by omega
      rw [hsub, range_map_pow_cons]

/-- C6: behavior of the transient-retry wrapper.  If the first `k`
attempts fail with retryable errors and attempt `k` (within the budget)
succeeds, the wrapper returns that success value after delays
`initialDelay * 2 ^ n` before retry `n`; in particular two timeout
failures followed by a success (with the default `maxRetries = 3`)
return the value after exactly the delays `initialDelay` and
`2 * initialDelay`; and when every attempt fails retryably, the failure
observed on the last attempt is re-raised after `maxRetries` delays. -/
theorem retry_backoff_behavior {α : Type} (op : Nat → RunResult α) (d : Nat) :
    (∀ (mr k : Nat) (v : α), k ≤ mr →
      (∀ i, i < k → ∃ m, op i = .err m ∧ isTimeoutError m = true) →
      op k = .ok v →
      retryWithBackoff op mr d = (.ok v, (List.range k).map fun n => d * 2 ^ n)) ∧
    (∀ (mr : Nat) (mlast : String),
      (∀ i, i ≤ mr → ∃ m, op i = .err m ∧ isTimeoutError m = true) →
      op mr = .err mlast →
      retryWithBackoff op mr d = (.err mlast, (List.range mr).map fun n => d * 2 ^ n)) ∧
    (∀ (v : α) (m0 m1 : String),
      op 0 = .err m0 → isTimeoutError m0 = true →
      op 1 = .err m1 → isTimeoutError m1 = true →
      op 2 = .ok v →
      retryWithBackoff op 3 d = (.ok v, [d, 2 * d])) := by
  have hok : ∀ (mr k : Nat) (v : α), k ≤ mr →
      (∀ i, i < k → ∃ m, op i = .err m ∧ isTimeoutError m = true) →
      op k = .ok v →
      retryWithBackoff op mr d = (.ok v, (List.range k).map fun n => d * 2 ^ n) := by
    intro mr k v hk herr hokk
    have h := retryLoop_toOk op mr d v k 0 (mr + 1) "" (by omega) (by omega)
      (fun i hi => by simpa using herr i hi) (by simpa using hokk)
    simpa [retryWithBackoff] using h
  refine ⟨hok, ?_, ?_⟩
  · intro mr mlast herr hlast
    have h := retryLoop_exhaust op mr d mlast (mr + 1) 0 "" (by omega) (by omega)
      (fun i _ hi' => herr i hi') hlast
    simpa [retryWithBackoff] using h
  · intro v m0 m1 h0 ht0 h1 ht1 h2
    have h := hok 3 2 v (by omega)
      (fun i hi => by
        match i, hi with
        | 0, _ => exact ⟨m0, h0, ht0⟩
        | 1, _ => exact ⟨m1, h1, ht1⟩) h2
    rw [h]
    refine congrArg _ ?_
    rw [show (2 : Nat) = 1 + 1 from rfl, List.range_succ_eq_map, List.range_succ_eq_map]
    simp [mul_comm]

/-- Witness for C6: an operation failing with `"timeout"` on the first
two attempts and returning 42 on the third yields 42 with delays 1000
and 2000 under the default budget. -/
theorem retry_backoff_behavior_witness :
    retryWithBackoff (fun n => if n < 2 then RunResult.err "timeout" else .ok (42 : Nat))
      3 1000 = (.ok 42, [1000, 2 * 1000]) :=
  (retry_backoff_behavior (fun n => if n < 2 then RunResult.err "timeout" else .ok (42 : Nat))
      1000).2.2 42 "timeout" "timeout" rfl (by decide) rfl (by decide) rfl

/-- C7 counterexample: the retryable classification is not the
case-insensitive one the claim states.  The message `"Request Timeout"`
contains `timeout` case-insensitively, yet the source classifies it as
non-retryable — the wrapper re-raises it on the first attempt with no
delay instead of retrying. -/
theorem retry_classification_cex :
    specRetryClassifier "Request Timeout" = true ∧
    isTimeoutError "Request Timeout" = false ∧
    retryWithBackoff (fun _ => (RunResult.err "Request Timeout" : RunResult Nat)) 3 1000 =
      (.err "Request Timeout", []) := by
  refine ⟨by decide, by decide, ?_⟩
  have h : isTimeoutError "Request Timeout" = false := by decide
  simp [retryWithBackoff, retryLoop, h]

/-- C7 amended: a failure is classified retryable exactly when its
message contains `timeout`, `TIMEOUT`, `Connect Timeout` or
`fetch failed` as a case-sensitive substring; any failure outside that
set is re-raised to the caller on the first attempt, with zero retries
and zero delays, whatever the retry budget. -/
theorem retry_classification_amended {α : Type} (op : Nat → RunResult α)
    (mr d : Nat) (m : String) (h0 : op 0 = .err m)
    (hm : isTimeoutError m = false) :
    isTimeoutError m = (subStrOf "timeout" m || subStrOf "TIMEOUT" m ||
      subStrOf "Connect Timeout" m || subStrOf "fetch failed" m) ∧
    retryWithBackoff op mr d = (.err m, []) := by
  refine ⟨rfl, ?_⟩
  simp [retryWithBackoff, retryLoop, h0, hm]

/-- Witness for C7 amended: a plain `"boom"` failure is re-raised at
once with no delays. -/
theorem retry_classification_amended_witness :
    retryWithBackoff (fun _ => (RunResult.err "boom" : RunResult Nat)) 3 1000 =
      (.err "boom", []) :=
  (retry_classification_amended (fun _ => (RunResult.err "boom" : RunResult Nat))
      3 1000 "boom" rfl (by decide)).2

/-- Helper: every alphabet index below 37 selects a character of the
alphabet. -/
theorem uidAlphabet_getD_mem : ∀ j, j < 37 → uidAlphabet.getD j 'a' ∈ uidAlphabet := by
  decide

/-- Helper: when the uniqueness lookup reports a collision on every
attempt, the generation loop exhausts its fuel, performing exactly one
draw per unit of fuel and returning no identifier. -/
theorem findUidAux_allcollide (collides : Nat → Bool) (rnd : Nat → Nat → Nat)
    (h : ∀ n, collides n = true) :
    ∀ (fuel attempt : Nat), findUidAux collides rnd attempt fuel = (none, fuel) := by
  intro fuel
  induction fuel with
  | zero => intro a; rfl
  | succ f ih =>
    intro a
    simp [findUidAux, h a, ih (a + 1)]

/-- C8: the identifier generator always draws 21-character strings over
the lowercase-letters/digits/hyphen alphabet; when the uniqueness lookup
collides on the first two attempts and clears the third, the creation
loop returns the third draw after exactly three generation attempts; and
when every lookup collides, it gives up with the generation-exhausted
error (`none`) after exactly 10 attempts, returning no identifier. -/
theorem uid_generator_contract :
    (∀ rnd : Nat → Nat, (generateUid rnd 21).length = 21 ∧
      ∀ ch ∈ (generateUid rnd 21).toList, ch ∈ uidAlphabet) ∧
    (∀ (collides : Nat → Bool) (rnd : Nat → Nat → Nat),
      collides 0 = true → collides 1 = true → collides 2 = false →
      createLinktreeUid collides rnd = (some (generateUid (rnd 2) 21), 3)) ∧
    (∀ (collides : Nat → Bool) (rnd : Nat → Nat → Nat),
      (∀ n, collides n = true) →
      createLinktreeUid collides rnd = (none, 10)) := by
  refine ⟨?_, ?_, ?_⟩
  · intro rnd
    constructor
    · show ((List.range 21).map fun i =>
        uidAlphabet.getD (rnd i % uidAlphabet.length) 'a').length = 21
      simp
    · intro ch hch
      have hch' : ch ∈ (List.range 21).map fun i =>
          uidAlphabet.getD (rnd i % uidAlphabet.length) 'a' := hch
      obtain ⟨i, _, hi⟩ := List.mem_map.mp hch'
      rw [← hi]
      apply uidAlphabet_getD_mem
      have h37 : uidAlphabet.length = 37 := by decide
      rw [h37]
      exact Nat.mod_lt _ (by omega)
  · intro collides rnd h0 h1 h2
    simp [createLinktreeUid, findUidAux, h0, h1, h2]
  · intro collides rnd h
    rw [show createLinktreeUid collides rnd = findUidAux collides rnd 0 10 from rfl,
      findUidAux_allcollide collides rnd h 10 0]

/-- Witness for C8: with a lookup colliding on the first two attempts
only and a constant random source, the loop returns the third draw in
three attempts; with an always-colliding lookup it exhausts after 10. -/
theorem uid_generator_contract_witness :
    createLinktreeUid (fun n => decide (n < 2)) (fun _ _ => 0) =
      (some (generateUid ((fun _ _ => (0 : Nat)) 2) 21), 3) ∧
    createLinktreeUid (fun _ => true) (fun _ _ => 0) = (none, 10) :=
  ⟨uid_generator_contract.2.1 (fun n => decide (n < 2)) (fun _ _ => 0) rfl rfl rfl,
   uid_generator_contract.2.2 (fun _ => true) (fun _ _ => 0) (fun _ => rfl)⟩

